import Mathlib

/-!
Verification of the concurrent subprocess orchestration and cancellation
subsystem of the DDEV Manager desktop application.

The embedding below follows the Rust sources under `src-tauri/src/`:

* `process.rs`    — the global process registry (`PROCESS_REGISTRY`), the
  task-identifier counter (`generate_process_id`), the registry helper
  operations, and the cancellation controller `cancel_command`;
* `ddev.rs`       — the single-shot streaming runners
  `run_ddev_command_streaming` and `run_streaming_command`;
* `commands/create.rs` — the chained-task runner `create_project`;
* `types.rs`      — the event payloads `CommandStatus` and `CommandOutput`.

The `HashMap<String, ProcessEntry>` registry is modelled as an association
list with insert-replaces semantics.  OS child-process handles are opaque
`Nat` tokens.  Each modelled operation returns, besides its result and the
updated registry, a linear trace of `Action`s recording lock acquisition and
release (a Rust `MutexGuard` lives to the end of its scope), single map
operations performed under the lock, `kill`/`wait` calls on child handles,
and every event emitted through the Tauri window.  The external world
(whether `spawn` succeeds, the lines each pipe produces, the child's exit
status) is supplied as an explicit parameter, so each run of a modelled
function corresponds to one behaviour of the Rust function.
-/

namespace DdevManager

/-- Model of `ProcessEntry` (process.rs): the child handle is an opaque
token, `none` between sequential commands of a multi-step task. -/
structure ProcessEntry where
  child : Option Nat
  command : String
  project : String
deriving DecidableEq, Repr

/-- The `PROCESS_REGISTRY` map, modelled as an association list. -/
abbrev Registry := List (String × ProcessEntry)

/-- Model of `HashMap::get` on the registry. -/
def rlookup (r : Registry) (k : String) : Option ProcessEntry :=
  (r.find? (fun p => p.1 == k)).map (fun p => p.2)

/-- Model of `HashMap::remove` (the resulting map) on the registry. -/
def rerase (r : Registry) (k : String) : Registry :=
  r.filter (fun p => p.1 != k)

/-- Model of `HashMap::insert` on the registry: replaces any old binding. -/
def rinsert (r : Registry) (k : String) (v : ProcessEntry) : Registry :=
  (k, v) :: rerase r k

/-- Model of the `CommandStatus` event payload (types.rs). -/
structure CommandStatus where
  command : String
  project : String
  status : String
  message : Option String
  process_id : Option String
deriving DecidableEq, Repr

/-- Model of the `CommandOutput` event payload (types.rs). -/
structure CommandOutput where
  line : String
  stream : String
deriving DecidableEq, Repr

/-- One atomic step of a modelled operation: registry-lock handling, map
operations under the lock, kill/wait on a child handle, event emission, and
a marker for launching an external step. -/
inductive Action where
  | lockAcquire : Action
  | lockRelease : Action
  | mapOp : Action
  | killChild : Nat → Action
  | waitChild : Nat → Action
  | emitStatus : CommandStatus → Action
  | emitOutput : CommandOutput → Action
  | spawnStep : String → Action
deriving DecidableEq, Repr

/-- The status events emitted during a trace, in order. -/
def emittedStatuses (t : List Action) : List CommandStatus :=
  t.filterMap (fun a =>
    match a with
    | Action.emitStatus s => some s
    | _ => none)

/-- The output events emitted during a trace, in order. -/
def emittedOutputs (t : List Action) : List CommandOutput :=
  t.filterMap (fun a =>
    match a with
    | Action.emitOutput o => some o
    | _ => none)

/-- An event as seen by the UI: a status or an output payload. -/
inductive Event where
  | status : CommandStatus → Event
  | output : CommandOutput → Event
deriving DecidableEq, Repr

/-- All UI-visible events of a trace (statuses and outputs), in order. -/
def emittedEvents (t : List Action) : List Event :=
  t.filterMap (fun a =>
    match a with
    | Action.emitStatus s => some (Event.status s)
    | Action.emitOutput o => some (Event.output o)
    | _ => none)

/-- Model of `generate_process_id` (process.rs): increments the global
`u64` counter under its mutex and renders the id.  The counter is a `u64`,
so the release-mode `*counter += 1` wraps at `2 ^ 64`; the model increments
modulo `2 ^ 64`.  Takes and returns the counter state. -/
def generate_process_id (counter : Nat) : String × Nat :=
  ("proc_" ++ Nat.repr ((counter + 1) % 2 ^ 64), (counter + 1) % 2 ^ 64)

/-- Model of `is_process_cancelled` (process.rs): a task is cancelled iff its entry
is gone from the registry. -/
def is_process_cancelled (r : Registry) (process_id : String) : Bool :=
  (rlookup r process_id).isNone

/-- Lock/step trace of `is_process_cancelled`: one map operation under the
lock, nothing else. -/
def is_process_cancelled_trace : List Action :=
  [Action.lockAcquire, Action.mapOp, Action.lockRelease]

/-- Model of `create_task_entry` (process.rs): insert an entry with no child. -/
def create_task_entry (r : Registry) (process_id command project : String) :
    Registry :=
  rinsert r process_id { child := none, command := command, project := project }

/-- Lock/step trace of `create_task_entry`. -/
def create_task_entry_trace : List Action :=
  [Action.lockAcquire, Action.mapOp, Action.lockRelease]

/-- Model of `register_child_process` (process.rs): insert (or overwrite) an entry
carrying a live child handle. -/
def register_child_process (r : Registry) (process_id : String) (child : Nat)
    (command project : String) : Registry :=
  rinsert r process_id
    { child := some child, command := command, project := project }

/-- Lock/step trace of `register_child_process`. -/
def register_child_process_trace : List Action :=
  [Action.lockAcquire, Action.mapOp, Action.lockRelease]

/-- Model of `take_child_process` (process.rs): take the child out of the entry,
leaving the entry present with `child := none`. -/
def take_child_process (r : Registry) (process_id : String) :
    Registry × Option Nat :=
  match rlookup r process_id with
  | some entry =>
      (rinsert r process_id { entry with child := none }, entry.child)
  | none => (r, none)

/-- Lock/step trace of `take_child_process`. -/
def take_child_process_trace : List Action :=
  [Action.lockAcquire, Action.mapOp, Action.lockRelease]

/-- Model of `remove_task_entry` (process.rs): delete the entry unconditionally. -/
def remove_task_entry (r : Registry) (process_id : String) : Registry :=
  rerase r process_id

/-- Lock/step trace of `remove_task_entry`. -/
def remove_task_entry_trace : List Action :=
  [Action.lockAcquire, Action.mapOp, Action.lockRelease]

/-- The "cancelled" status event emitted by `cancel_command`, carrying the
removed entry's original command and project labels and the task id. -/
def cancelledStatus (entry : ProcessEntry) (process_id : String) :
    CommandStatus :=
  { command := entry.command
    project := entry.project
    status := "cancelled"
    message := some "Command was cancelled by user"
    process_id := some process_id }

/-- The not-found error message of `cancel_command`. -/
def cancelNotFoundMsg (process_id : String) : String :=
  "Process " ++ process_id ++ " not found or already completed"

/-- Result of one `cancel_command` call: updated registry, action trace,
and the `Result<(), DdevError>` returned to the caller. -/
structure CancelResult where
  registry : Registry
  trace : List Action
  result : Except String Unit
deriving Repr

/-- Model of `cancel_command` (process.rs, lines 86-117).  The `MutexGuard` taken on
entry lives to the end of the function body, so the kill, the wait and the
event emission in the found-branch all happen with the lock held. -/
def cancel_command (r : Registry) (process_id : String) : CancelResult :=
  match rlookup r process_id with
  | some entry =>
      { registry := rerase r process_id
        trace :=
          [Action.lockAcquire, Action.mapOp] ++
          (match entry.child with
           | some h => [Action.killChild h, Action.waitChild h]
           | none => []) ++
          [Action.emitStatus (cancelledStatus entry process_id),
           Action.lockRelease]
        result := Except.ok () }
  | none =>
      { registry := r
        trace := [Action.lockAcquire, Action.mapOp, Action.lockRelease]
        result := Except.error (cancelNotFoundMsg process_id) }

/-- A concrete registry entry and registry used to instantiate the
quantified theorems at a concrete input. -/
def witnessEntry : ProcessEntry :=
  { child := some 7, command := "start", project := "site" }

/-- A concrete one-entry registry. -/
def witnessRegistry : Registry := [("proc_1", witnessEntry)]

/-- The numeric value of a decimal digit character. -/
def charVal (c : Char) : Nat := c.toNat - 48

/-- Decode a list of decimal digit characters back into a number. -/
def decodeDigits (l : List Char) : Nat :=
  l.foldl (fun acc c => 10 * acc + charVal c) 0

/-- The global counter after `n` calls to `generate_process_id`, starting
from the initial value 0 of `PROCESS_COUNTER`. -/
def counterAfter : Nat → Nat
  | 0 => 0
  | n + 1 => (generate_process_id (counterAfter n)).2

/-- The identifier returned by the `(n+1)`-th call. -/
def processIdAt (n : Nat) : String :=
  (generate_process_id (counterAfter n)).1

/-- The numeric counter value carried by the `(n+1)`-th identifier. -/
def processCounterAt (n : Nat) : Nat :=
  (generate_process_id (counterAfter n)).2

/-- One captured pipe of the child process, as delivered by
`BufRead::lines()`: each element is a decoded line or a per-line
read/decode error. -/
abbrev StreamData := List (Except Unit String)

/-- Model of `reader.lines().map_while(Result::ok)` (ddev.rs): the lines emitted for
one stream — every line up to, and not past, the first erroneous one. -/
def linesMapWhileOk : StreamData → List String
  | [] => []
  | Except.ok l :: rest => l :: linesMapWhileOk rest
  | Except.error _ :: _ => []

/-- Behaviour of the external world for one spawn attempt: either `spawn`
itself fails, or it yields a child handle together with the contents of its
two pipes and the child's `wait()` outcome (`Except.ok b` meaning the exit
status had `success() = b`, `Except.error` a failed `wait`). -/
inductive SpawnOutcome where
  | spawnFail : String → SpawnOutcome
  | spawned : Nat → StreamData → StreamData → Except Unit Bool → SpawnOutcome

/-- Does the modelled world describe a process that spawned and exited
successfully? -/
def spawnExitOk : SpawnOutcome → Bool
  | SpawnOutcome.spawned _ _ _ (Except.ok true) => true
  | _ => false

/-- The "started" status event of `run_ddev_command_streaming`. -/
def ddevStartedStatus (command_name project_name argsLine process_id : String) :
    CommandStatus :=
  { command := command_name, project := project_name, status := "started"
    message := some ("Running: ddev " ++ argsLine)
    process_id := some process_id }

/-- The spawn-failure "error" status event of `run_ddev_command_streaming`. -/
def ddevSpawnErrorStatus (command_name project_name e : String) :
    CommandStatus :=
  { command := command_name, project := project_name, status := "error"
    message := some ("Failed to start command: " ++ e), process_id := none }

/-- The "finished" status event of `run_ddev_command_streaming`. -/
def ddevFinishedStatus (command_name project_name : String) : CommandStatus :=
  { command := command_name, project := project_name, status := "finished"
    message := some "Command completed successfully", process_id := none }

/-- The "error" terminal status event of `run_ddev_command_streaming`. -/
def ddevFailedStatus (command_name project_name : String) : CommandStatus :=
  { command := command_name, project := project_name, status := "error"
    message := some "Command failed", process_id := none }

/-- The output events for the drained lines of one stream. -/
def outputActions (stream : String) (lines : List String) : List Action :=
  lines.map (fun l => Action.emitOutput { line := l, stream := stream })

/-- Result of one `run_ddev_command_streaming` call. -/
structure RunResult where
  registry : Registry
  trace : List Action
  result : Except String String
  counter : Nat

/-- Model of `run_ddev_command_streaming` (ddev.rs, lines 237-395).  The function
generates a task id, emits "started" with that id, spawns the child;
on spawn failure it emits a terminal "error" and touches no registry state.
Otherwise it inserts the entry (raw `registry.insert` under the lock),
drains both pipes (each reader stopping at its first per-line error), then
under the lock removes the entry and waits on the child — the `wait` call
happens inside the critical section.  A concurrent cancellation may have
removed the entry while streaming (`cancelledDuring`); in that case the
final remove finds nothing and no terminal event is emitted. -/
def run_ddev_command_streaming (r : Registry) (counter : Nat)
    (command_name project_name argsLine : String) (world : SpawnOutcome)
    (cancelledDuring : Bool) : RunResult :=
  let pc := generate_process_id counter
  let process_id := pc.1
  let started := Action.emitStatus
    (ddevStartedStatus command_name project_name argsLine process_id)
  match world with
  | SpawnOutcome.spawnFail e =>
      { registry := r
        trace := [started, Action.spawnStep "ddev",
          Action.emitStatus
            (ddevSpawnErrorStatus command_name project_name e)]
        result := Except.ok process_id
        counter := pc.2 }
  | SpawnOutcome.spawned h stdoutData stderrData waitRes =>
      let r1 := rinsert r process_id
        { child := some h, command := command_name, project := project_name }
      let outs :=
        outputActions "stdout" (linesMapWhileOk stdoutData) ++
        outputActions "stderr" (linesMapWhileOk stderrData)
      let r2 := if cancelledDuring then rerase r1 process_id else r1
      let removed := rlookup r2 process_id
      let r3 := rerase r2 process_id
      let waitTrace :=
        [Action.lockAcquire, Action.mapOp] ++
        (match removed with
         | some entry =>
             (match entry.child with
              | some h2 => [Action.waitChild h2]
              | none => [])
         | none => []) ++
        [Action.lockRelease]
      let status : Option (Except Unit Bool) :=
        removed.bind (fun entry => entry.child.map (fun _ => waitRes))
      let terminal : List Action :=
        match status with
        | some (Except.ok true) =>
            [Action.emitStatus
              (ddevFinishedStatus command_name project_name)]
        | none => []
        | _ =>
            [Action.emitStatus (ddevFailedStatus command_name project_name)]
      { registry := r3
        trace := [started, Action.spawnStep "ddev",
          Action.lockAcquire, Action.mapOp, Action.lockRelease] ++ outs ++
          waitTrace ++ terminal
        result := Except.ok process_id
        counter := pc.2 }

/-- Is an action a `wait` on a child process? -/
def Action.isWait : Action → Bool
  | Action.waitChild _ => true
  | _ => false

/-- Result of one `run_streaming_command` call: the Rust function returns
`Result<bool, &'static str>` — `Err("cancelled")`, or `Ok(success)`. -/
structure StreamRunResult where
  registry : Registry
  trace : List Action
  result : Except String Bool

/-- Model of `run_streaming_command` (ddev.rs, lines 574-683).  Pre-checks
cancellation when a task id is supplied; on spawn failure it emits a
"Failed to start" stderr output line and returns `Ok(false)` without
touching the registry; otherwise it registers the child (when an id is
supplied), drains both pipes, takes the child back out of the registry and
waits on it outside the lock, mapping a failed `wait` to `Ok(false)`; if
the take finds nothing it reports "cancelled" when the entry is gone and
`Ok(true)` when the entry exists with the child already taken.  With no
task id it never waits and returns `Ok(true)`. -/
def run_streaming_command (r : Registry) (cmd : String)
    (process_id : Option String) (command_name project_name : String)
    (world : SpawnOutcome) (cancelledDuring : Bool) : StreamRunResult :=
  let preTrace : List Action :=
    match process_id with
    | some _ => is_process_cancelled_trace
    | none => []
  let preCancelled : Bool :=
    match process_id with
    | some pid => is_process_cancelled r pid
    | none => false
  if preCancelled then
    { registry := r, trace := preTrace, result := Except.error "cancelled" }
  else
    match world with
    | SpawnOutcome.spawnFail e =>
        { registry := r
          trace := preTrace ++ [Action.spawnStep cmd,
            Action.emitOutput
              { line := "Failed to start " ++ cmd ++ ": " ++ e,
                stream := "stderr" }]
          result := Except.ok false }
    | SpawnOutcome.spawned c stdoutData stderrData waitRes =>
        let r1 := match process_id with
          | some pid =>
              register_child_process r pid c command_name project_name
          | none => r
        let regTrace : List Action := match process_id with
          | some _ => register_child_process_trace
          | none => []
        let outs :=
          outputActions "stdout" (linesMapWhileOk stdoutData) ++
          outputActions "stderr" (linesMapWhileOk stderrData)
        let common := preTrace ++ [Action.spawnStep cmd] ++ regTrace ++ outs
        match process_id with
        | some pid =>
            let r2 := if cancelledDuring then rerase r1 pid else r1
            let tk := take_child_process r2 pid
            match tk.2 with
            | some c2 =>
                { registry := tk.1
                  trace := common ++ take_child_process_trace ++
                    [Action.waitChild c2]
                  result := Except.ok (match waitRes with
                    | Except.ok b => b
                    | Except.error _ => false) }
            | none =>
                if is_process_cancelled tk.1 pid then
                  { registry := tk.1
                    trace := common ++ take_child_process_trace ++
                      is_process_cancelled_trace
                    result := Except.error "cancelled" }
                else
                  { registry := tk.1
                    trace := common ++ take_child_process_trace ++
                      is_process_cancelled_trace
                    result := Except.ok true }
        | none =>
            { registry := r1
              trace := common
              result := Except.ok true }

/-- Outcome of one chained step as classified by `create_project`'s match
on `run_streaming_command` / `install_cms`: `Ok(true)`, `Ok(false)`, or
`Err("cancelled")`. -/
inductive StepResult where
  | success : StepResult
  | failed : StepResult
  | cancelled : StepResult
deriving DecidableEq, Repr

/-- External behaviour of one `create_project` run: the outcome of the
directory creation, of the optional CMS-install step (`none` when no CMS
install was requested), of the `ddev config` step, and of the optional
`ddev start` step. -/
structure CreateWorld where
  dirResult : Except String Unit
  cmsStep : Option StepResult
  configStep : StepResult
  startStep : StepResult

/-- The "started" status event of `create_project`. -/
def createStartedStatus (name argsLine process_id : String) : CommandStatus :=
  { command := "config", project := name, status := "started"
    message := some ("Creating project: ddev " ++ argsLine)
    process_id := some process_id }

/-- The directory-creation failure status event of `create_project`. -/
def dirErrorStatus (name e : String) : CommandStatus :=
  { command := "config", project := name, status := "error"
    message := some ("Failed to create directory: " ++ e)
    process_id := none }

/-- The CMS-install failure status event of `create_project`. -/
def cmsFailedStatus (name : String) : CommandStatus :=
  { command := "config", project := name, status := "error"
    message := some "CMS installation failed", process_id := none }

/-- The `ddev config` failure status event of `create_project`. -/
def configFailedStatus (name : String) : CommandStatus :=
  { command := "config", project := name, status := "error"
    message := some "Failed to create project", process_id := none }

/-- The terminal "finished" status event of `create_project`. -/
def createFinishedStatus (name : String) : CommandStatus :=
  { command := "config", project := name, status := "finished"
    message := some "Project created successfully", process_id := none }

/-- Result of one `create_project` call (it returns `Ok(process_id)`). -/
structure CreateResult where
  registry : Registry
  trace : List Action
  result : Except String String

/-- The `ddev config` / optional `ddev start` phase of `create_project`
(create.rs, lines 412-493).  Step internals are abstracted to `spawnStep`
markers: only `create_project`'s own registry updates and status events
are at issue here.  Note the `Ok(_) => ()` arm after `ddev start`: a
failed start step falls through to the "finished" event. -/
def create_project_config_phase (r0 : Registry)
    (process_id project_name : String) (auto_start : Bool) (w : CreateWorld)
    (pre : List Action) : CreateResult :=
  if is_process_cancelled r0 process_id then
    { registry := r0, trace := pre, result := Except.ok process_id }
  else
    match w.configStep with
    | StepResult.success =>
        if auto_start then
          if is_process_cancelled r0 process_id then
            { registry := r0, trace := pre ++ [Action.spawnStep "config"]
              result := Except.ok process_id }
          else
            match w.startStep with
            | StepResult.cancelled =>
                { registry := rerase r0 process_id
                  trace := pre ++ [Action.spawnStep "config",
                    Action.spawnStep "start"]
                  result := Except.ok process_id }
            | _ =>
                { registry := remove_task_entry r0 process_id
                  trace := pre ++ [Action.spawnStep "config",
                    Action.spawnStep "start",
                    Action.emitStatus (createFinishedStatus project_name)]
                  result := Except.ok process_id }
        else
          { registry := remove_task_entry r0 process_id
            trace := pre ++ [Action.spawnStep "config",
              Action.emitStatus (createFinishedStatus project_name)]
            result := Except.ok process_id }
    | StepResult.failed =>
        { registry := remove_task_entry r0 process_id
          trace := pre ++ [Action.spawnStep "config",
            Action.emitStatus (configFailedStatus project_name)]
          result := Except.ok process_id }
    | StepResult.cancelled =>
        { registry := rerase r0 process_id
          trace := pre ++ [Action.spawnStep "config"]
          result := Except.ok process_id }

/-- Model of `create_project` (create.rs, lines 273-497): creates the task entry
and emits "started" with the task id, then in the worker thread runs the
directory setup, the optional CMS install, `ddev config` and the optional
`ddev start`, with cancellation checks between steps.  A step that
returned `Err("cancelled")` means `cancel_command` already removed the
entry and emitted the cancelled event, so those paths return silently
with the entry gone. -/
def create_project (r : Registry) (counter : Nat) (name argsLine : String)
    (auto_start : Bool) (w : CreateWorld) : CreateResult :=
  let pc := generate_process_id counter
  let process_id := pc.1
  let r0 := create_task_entry r process_id "config" name
  let started := Action.emitStatus
    (createStartedStatus name argsLine process_id)
  match w.dirResult with
  | Except.error e =>
      { registry := remove_task_entry r0 process_id
        trace := [started, Action.emitStatus (dirErrorStatus name e)]
        result := Except.ok process_id }
  | Except.ok _ =>
      if is_process_cancelled r0 process_id then
        { registry := r0, trace := [started]
          result := Except.ok process_id }
      else
        match w.cmsStep with
        | some StepResult.failed =>
            { registry := remove_task_entry r0 process_id
              trace := [started, Action.spawnStep "cms",
                Action.emitStatus (cmsFailedStatus name)]
              result := Except.ok process_id }
        | some StepResult.cancelled =>
            { registry := rerase r0 process_id
              trace := [started, Action.spawnStep "cms"]
              result := Except.ok process_id }
        | some StepResult.success =>
            create_project_config_phase r0 process_id name auto_start w
              [started, Action.spawnStep "cms"]
        | none =>
            create_project_config_phase r0 process_id name auto_start w
              [started]

/-- Did the trace launch the step named `s`? -/
def ranStep (t : List Action) (s : String) : Bool :=
  t.any (fun a => a == Action.spawnStep s)

/-- The `process_id` discipline the code actually implements: the id is
present on "started" and on the cancellation controller's "cancelled"
event, absent on "finished" and "error". -/
def statusIdOk (process_id : String) (s : CommandStatus) : Bool :=
  if s.status == "started" then s.process_id == some process_id
  else if s.status == "cancelled" then s.process_id == some process_id
  else s.process_id == none

/-- Actions that block on process I/O (kill, wait) or emit an event. -/
def Action.blocksOrEmits : Action → Bool
  | Action.killChild _ => true
  | Action.waitChild _ => true
  | Action.emitStatus _ => true
  | Action.emitOutput _ => true
  | _ => false

/-- Scan a trace tracking whether the registry lock is held; `true` iff no
blocking or emitting action occurs while it is held. -/
def lockDisciplineAux : List Action → Bool → Bool
  | [], _ => true
  | Action.lockAcquire :: t, _ => lockDisciplineAux t true
  | Action.lockRelease :: t, _ => lockDisciplineAux t false
  | a :: t, held => (!(held && a.blocksOrEmits)) && lockDisciplineAux t held

/-- A trace respects the minimum-critical-section discipline when nothing
blocking or emitting happens while the registry lock is held. -/
def lockDiscipline (t : List Action) : Bool := lockDisciplineAux t false

/-- Scan checking that every critical section performs exactly one map
operation (`none` = lock free, `some k` = held with `k` map operations). -/
def singleMapAux : List Action → Option Nat → Bool
  | [], none => true
  | [], some _ => false
  | Action.lockAcquire :: t, none => singleMapAux t (some 0)
  | Action.lockAcquire :: _, some _ => false
  | Action.lockRelease :: t, some 1 => singleMapAux t none
  | Action.lockRelease :: _, _ => false
  | Action.mapOp :: t, some k => singleMapAux t (some (k + 1))
  | Action.mapOp :: _, none => false
  | _ :: t, st => singleMapAux t st

theorem rlookup_cons (pk : String) (pv : ProcessEntry) (r : Registry)
    (k : String) :
    rlookup ((pk, pv) :: r) k =
      if pk = k then some pv else rlookup r k := by
  by_cases h : pk = k
  · simp [rlookup, List.find?_cons_of_pos, h]
  · have hb : (pk == k) = false := beq_false_of_ne h
    simp [rlookup, List.find?_cons_of_neg, h, hb]

theorem rerase_cons (pk : String) (pv : ProcessEntry) (r : Registry)
    (k : String) :
    rerase ((pk, pv) :: r) k =
      if pk = k then rerase r k else (pk, pv) :: rerase r k := by
  by_cases h : pk = k
  · simp [rerase, List.filter_cons, h]
  · have hb : (pk == k) = false := beq_false_of_ne h
    simp [rerase, List.filter_cons, h, hb]

theorem rlookup_rerase_self (r : Registry) (k : String) :
    rlookup (rerase r k) k = none := by
  induction r with
  | nil => rfl
  | cons p r ih =>
      rcases p with ⟨pk, pv⟩
      rw [rerase_cons]
      by_cases h : pk = k
      · simpa [h] using ih
      · simpa [h, rlookup_cons] using ih

theorem rlookup_rinsert_self (r : Registry) (k : String) (v : ProcessEntry) :
    rlookup (rinsert r k v) k = some v := by
  simp [rinsert, rlookup_cons]

theorem rerase_of_lookup_none (r : Registry) (k : String)
    (h : rlookup r k = none) : rerase r k = r := by
  induction r with
  | nil => rfl
  | cons p r ih =>
      rcases p with ⟨pk, pv⟩
      rw [rlookup_cons] at h
      by_cases hp : pk = k
      · simp [hp] at h
      · simp [hp] at h
        rw [rerase_cons]
        simp [hp, ih h]

/-- C1: cancellation atomically removes the registry entry for the given
id; when the entry exists it returns `Ok`, the entry is gone afterwards,
exactly one "cancelled" status event is emitted carrying the entry's
original command and project labels, any live child handle is killed and
reaped, and a second cancellation of the same id fails with the not-found
error; when no entry exists it returns the not-found error, emits no
status event, and leaves the registry unchanged. -/
theorem cancel_command_spec (r : Registry) (pid : String) :
    (∀ e, rlookup r pid = some e →
      (cancel_command r pid).result = Except.ok () ∧
      rlookup (cancel_command r pid).registry pid = none ∧
      emittedStatuses (cancel_command r pid).trace = [cancelledStatus e pid] ∧
      (∀ h, e.child = some h →
        Action.killChild h ∈ (cancel_command r pid).trace ∧
        Action.waitChild h ∈ (cancel_command r pid).trace) ∧
      (cancel_command (cancel_command r pid).registry pid).result =
        Except.error (cancelNotFoundMsg pid)) ∧
    (rlookup r pid = none →
      (cancel_command r pid).result = Except.error (cancelNotFoundMsg pid) ∧
      (cancel_command r pid).registry = r ∧
      emittedStatuses (cancel_command r pid).trace = []) := by
  constructor
  · intro e he
    refine ⟨?_, ?_, ?_, ?_, ?_⟩
    · simp [cancel_command, he]
    · simp [cancel_command, he, rlookup_rerase_self]
    · cases hc : e.child <;> simp [cancel_command, he, hc, emittedStatuses]
    · intro h hh
      simp [cancel_command, he, hh]
    · simp [cancel_command, he, rlookup_rerase_self]
  · intro he
    exact ⟨by simp [cancel_command, he], by simp [cancel_command, he],
      by simp [cancel_command, he, emittedStatuses]⟩

/-- Witness for C1 at a concrete registry: the first cancellation succeeds,
emits the single cancelled event with the entry's labels, and the second
cancellation fails with the not-found error. -/
theorem cancel_command_spec_witness :
    (cancel_command witnessRegistry "proc_1").result = Except.ok () ∧
    emittedStatuses (cancel_command witnessRegistry "proc_1").trace =
      [cancelledStatus witnessEntry "proc_1"] ∧
    (cancel_command
        (cancel_command witnessRegistry "proc_1").registry "proc_1").result =
      Except.error (cancelNotFoundMsg "proc_1") := by
  have h := (cancel_command_spec witnessRegistry "proc_1").1 witnessEntry
    (by decide)
  exact ⟨h.1, h.2.2.1, h.2.2.2.2⟩

theorem toDigitsCore_append (fuel : Nat) :
    ∀ (n : Nat) (ds : List Char),
      Nat.toDigitsCore 10 fuel n ds = Nat.toDigitsCore 10 fuel n [] ++ ds := by
  induction fuel with
  | zero => intro n ds; simp [Nat.toDigitsCore]
  | succ f ih =>
      intro n ds
      simp only [Nat.toDigitsCore]
      by_cases h : n / 10 = 0
      · simp [h]
      · simp only [h, if_false]
        rw [ih (n / 10) (Nat.digitChar (n % 10) :: ds),
          ih (n / 10) [Nat.digitChar (n % 10)]]
        simp

theorem toDigitsCore_fuel (fuel : Nat) :
    ∀ (n : Nat) (ds : List Char), n < fuel →
      Nat.toDigitsCore 10 fuel n ds = Nat.toDigitsCore 10 (n + 1) n ds := by
  induction fuel using Nat.strong_induction_on with
  | _ fuel ih =>
      intro n ds h
      match fuel, h with
      | f + 1, h =>
        simp only [Nat.toDigitsCore]
        by_cases h0 : n / 10 = 0
        · simp [h0]
        · simp only [h0, if_false]
          have hn : 0 < n := by
            rcases Nat.eq_zero_or_pos n with h' | h'
            · exact absurd (by simp [h']) h0
            · exact h'
          have hdiv : n / 10 < n := Nat.div_lt_self hn (by omega)
          have h1 : n / 10 < f := by omega
          have h2 : n / 10 < n := hdiv
          rw [ih f (by omega) (n / 10) _ h1,
            ih n (by omega) (n / 10) _ h2]

theorem toDigits_base (n : Nat) (h : n < 10) :
    Nat.toDigits 10 n = [Nat.digitChar n] := by
  have h0 : n / 10 = 0 := Nat.div_eq_of_lt h
  simp [Nat.toDigits, Nat.toDigitsCore, h0, Nat.mod_eq_of_lt h]

theorem toDigits_step (n : Nat) (h : 10 ≤ n) :
    Nat.toDigits 10 n =
      Nat.toDigits 10 (n / 10) ++ [Nat.digitChar (n % 10)] := by
  have h0 : n / 10 ≠ 0 := by
    intro h'
    have := Nat.div_eq_of_lt (by omega : n < 10)
    omega
  show Nat.toDigitsCore 10 (n + 1) n [] = _
  simp only [Nat.toDigitsCore, h0, if_false]
  rw [toDigitsCore_fuel n (n / 10) _
      (Nat.lt_of_lt_of_le (Nat.div_lt_self (by omega) (by omega)) (le_refl n)),
    toDigitsCore_append]
  rfl

theorem digitChar_val (d : Nat) (h : d < 10) :
    charVal (Nat.digitChar d) = d := by
  revert h
  revert d
  decide

theorem decode_toDigits (n : Nat) : decodeDigits (Nat.toDigits 10 n) = n := by
  induction n using Nat.strong_induction_on with
  | _ n ih =>
      by_cases h : n < 10
      · rw [toDigits_base n h]
        simp [decodeDigits, digitChar_val n h]
      · have h10 : 10 ≤ n := by omega
        rw [toDigits_step n h10]
        have hdiv : n / 10 < n := Nat.div_lt_self (by omega) (by omega)
        have := ih (n / 10) hdiv
        simp [decodeDigits, List.foldl_append] at this ⊢
        rw [this, digitChar_val (n % 10) (Nat.mod_lt n (by omega))]
        omega

theorem Nat_repr_injective (m n : Nat) (h : Nat.repr m = Nat.repr n) :
    m = n := by
  have hd : Nat.toDigits 10 m = Nat.toDigits 10 n := by
    have := congrArg String.data h
    simpa [Nat.repr, List.asString] using this
  calc m = decodeDigits (Nat.toDigits 10 m) := (decode_toDigits m).symm
    _ = decodeDigits (Nat.toDigits 10 n) := by rw [hd]
    _ = n := decode_toDigits n

theorem counterAfter_mod (n : Nat) : counterAfter n = n % 2 ^ 64 := by
  induction n with
  | zero => rfl
  | succ n ih =>
      show ((counterAfter n) + 1) % 2 ^ 64 = (n + 1) % 2 ^ 64
      rw [ih]
      conv_rhs => rw [Nat.add_mod]
      rw [Nat.mod_eq_of_lt (show (1 : Nat) < 2 ^ 64 by norm_num)]

theorem processCounterAt_eq (n : Nat) :
    processCounterAt n = (n % 2 ^ 64 + 1) % 2 ^ 64 := by
  show (generate_process_id (counterAfter n)).2 = (n % 2 ^ 64 + 1) % 2 ^ 64
  rw [counterAfter_mod]
  rfl

theorem processIdAt_eq (n : Nat) :
    processIdAt n = "proc_" ++ Nat.repr ((n % 2 ^ 64 + 1) % 2 ^ 64) := by
  show (generate_process_id (counterAfter n)).1 = _
  rw [counterAfter_mod]
  rfl

/-- Counterexample to C8: the `u64` counter wraps at `2 ^ 64`, so the call
with index `2 ^ 64` returns the same identifier, and the same numeric
counter 1, as the very first call — identifiers are neither unique across
the process lifetime nor strictly increasing. -/
theorem generate_process_id_wraps :
    (0 : Nat) < 2 ^ 64 ∧
    processIdAt 0 = processIdAt (2 ^ 64) ∧
    processCounterAt 0 = 1 ∧ processCounterAt (2 ^ 64) = 1 := by
  have hmod : (2 ^ 64 : Nat) % 2 ^ 64 = 0 := Nat.mod_self _
  have h1 : (1 : Nat) % 2 ^ 64 = 1 :=
    Nat.mod_eq_of_lt (by norm_num)
  refine ⟨by norm_num, ?_, ?_, ?_⟩
  · rw [processIdAt_eq, processIdAt_eq, Nat.zero_mod, hmod]
  · rw [processCounterAt_eq, Nat.zero_mod, Nat.zero_add, h1]
  · rw [processCounterAt_eq, hmod, Nat.zero_add, h1]

/-- C8 (amended): before the `u64` counter wraps — for call indices
`i < j` with `j + 1 < 2 ^ 64` — the numeric counters strictly increase
and the identifiers are pairwise distinct; from the `2 ^ 64`-th call on,
the counter wraps and identifiers repeat. -/
theorem generate_process_id_unique_monotone_before_wrap (i j : Nat)
    (hij : i < j) (hj : j + 1 < 2 ^ 64) :
    processCounterAt i < processCounterAt j ∧
    processIdAt i ≠ processIdAt j := by
  have hi1 : (i + 1) % 2 ^ 64 = i + 1 := Nat.mod_eq_of_lt (by omega)
  have hj1 : (j + 1) % 2 ^ 64 = j + 1 := Nat.mod_eq_of_lt hj
  have himod : i % 2 ^ 64 = i := Nat.mod_eq_of_lt (by omega)
  have hjmod : j % 2 ^ 64 = j := Nat.mod_eq_of_lt (by omega)
  have ci : processCounterAt i = i + 1 := by
    rw [processCounterAt_eq, himod, hi1]
  have cj : processCounterAt j = j + 1 := by
    rw [processCounterAt_eq, hjmod, hj1]
  constructor
  · omega
  · intro h
    have hrepr : Nat.repr (i + 1) = Nat.repr (j + 1) := by
      rw [processIdAt_eq, processIdAt_eq, himod, hjmod, hi1, hj1] at h
      have hdata := congrArg String.data h
      simp only [String.data_append] at hdata
      exact String.ext (List.append_cancel_left hdata)
    have := Nat_repr_injective (i + 1) (j + 1) hrepr
    omega

/-- Witness for C8's amended statement: the first two calls return
counters 1 < 2 and distinct identifiers. -/
theorem generate_process_id_unique_monotone_before_wrap_witness :
    processCounterAt 0 < processCounterAt 1 ∧
    processIdAt 0 ≠ processIdAt 1 :=
  generate_process_id_unique_monotone_before_wrap 0 1 (by norm_num)
    (by norm_num)

/-- C9: `register_child_process` inserts unconditionally: whatever the
prior registry state — including one whose entry for the id was already
removed by `cancel_command` — afterwards the entry exists with the given
handle and `is_process_cancelled` reports false, so a registration landing
after a cancellation resurrects the task as not-cancelled. -/
theorem register_child_process_unconditional (r : Registry) (pid : String)
    (c : Nat) (command project : String) :
    rlookup (register_child_process r pid c command project) pid =
      some { child := some c, command := command, project := project } ∧
    is_process_cancelled (register_child_process r pid c command project)
      pid = false ∧
    is_process_cancelled
      (register_child_process (cancel_command r pid).registry pid c command
        project) pid = false := by
  refine ⟨?_, ?_, ?_⟩
  · exact rlookup_rinsert_self r pid _
  · simp [is_process_cancelled, register_child_process, rlookup_rinsert_self]
  · simp [is_process_cancelled, register_child_process, rlookup_rinsert_self]

theorem emittedEvents_append (t1 t2 : List Action) :
    emittedEvents (t1 ++ t2) = emittedEvents t1 ++ emittedEvents t2 := by
  simp [emittedEvents]

theorem emittedEvents_outputActions (stream : String) (lines : List String) :
    emittedEvents (outputActions stream lines) =
      lines.map (fun l => Event.output { line := l, stream := stream }) := by
  induction lines with
  | nil => rfl
  | cons l ls ih => simp [outputActions, emittedEvents] at ih ⊢; exact ih

theorem emittedEvents_nil : emittedEvents [] = [] := rfl

theorem emittedEvents_status (s : CommandStatus) (t : List Action) :
    emittedEvents (Action.emitStatus s :: t) =
      Event.status s :: emittedEvents t := rfl

theorem emittedEvents_output (o : CommandOutput) (t : List Action) :
    emittedEvents (Action.emitOutput o :: t) =
      Event.output o :: emittedEvents t := rfl

theorem emittedEvents_lockAcquire (t : List Action) :
    emittedEvents (Action.lockAcquire :: t) = emittedEvents t := rfl

theorem emittedEvents_lockRelease (t : List Action) :
    emittedEvents (Action.lockRelease :: t) = emittedEvents t := rfl

theorem emittedEvents_mapOp (t : List Action) :
    emittedEvents (Action.mapOp :: t) = emittedEvents t := rfl

theorem emittedEvents_killChild (c : Nat) (t : List Action) :
    emittedEvents (Action.killChild c :: t) = emittedEvents t := rfl

theorem emittedEvents_waitChild (c : Nat) (t : List Action) :
    emittedEvents (Action.waitChild c :: t) = emittedEvents t := rfl

theorem emittedEvents_spawnStep (s : String) (t : List Action) :
    emittedEvents (Action.spawnStep s :: t) = emittedEvents t := rfl

/-- C3: a single-shot streaming run that is not cancelled emits exactly one
"started" status event, before every output event, and exactly one
terminal status event, after every output event, whose tag is "finished"
when the process spawned and exited successfully and "error" otherwise
(including spawn failure) — never both. -/
theorem run_ddev_streaming_event_shape (r : Registry) (counter : Nat)
    (command_name project_name argsLine : String) (world : SpawnOutcome)
    (cd : Bool) (hcd : cd = false) :
    ∃ outs : List CommandOutput, ∃ term : CommandStatus,
      emittedEvents (run_ddev_command_streaming r counter command_name
          project_name argsLine world cd).trace =
        Event.status (ddevStartedStatus command_name project_name argsLine
          (generate_process_id counter).1) ::
          (outs.map Event.output ++ [Event.status term]) ∧
      term.status = (if spawnExitOk world then "finished" else "error") := by
  subst hcd
  cases world with
  | spawnFail e =>
      refine ⟨[], ddevSpawnErrorStatus command_name project_name e, ?_, rfl⟩
      simp [run_ddev_command_streaming, emittedEvents]
  | spawned h sd ed wr =>
      refine ⟨(linesMapWhileOk sd).map
          (fun l => { line := l, stream := "stdout" }) ++
        (linesMapWhileOk ed).map (fun l => { line := l, stream := "stderr" }),
        ?_, ?_, ?_⟩
      case refine_1 =>
        exact match wr with
        | Except.ok true => ddevFinishedStatus command_name project_name
        | Except.ok false => ddevFailedStatus command_name project_name
        | Except.error _ => ddevFailedStatus command_name project_name
      case refine_2 =>
        rcases wr with u | b
        · simp [run_ddev_command_streaming, rlookup_rinsert_self,
            emittedEvents_append, emittedEvents_outputActions,
            emittedEvents_status, emittedEvents_output,
            emittedEvents_lockAcquire, emittedEvents_lockRelease,
            emittedEvents_mapOp, emittedEvents_waitChild,
            emittedEvents_spawnStep, emittedEvents_nil,
            List.map_map, Function.comp_def]
        · cases b <;>
            simp [run_ddev_command_streaming, rlookup_rinsert_self,
              emittedEvents_append, emittedEvents_outputActions,
              emittedEvents_status, emittedEvents_output,
              emittedEvents_lockAcquire, emittedEvents_lockRelease,
              emittedEvents_mapOp, emittedEvents_waitChild,
              emittedEvents_spawnStep, emittedEvents_nil,
              List.map_map, Function.comp_def]
      case refine_3 =>
        rcases wr with u | b
        · simp [spawnExitOk, ddevFailedStatus]
        · cases b <;> simp [spawnExitOk, ddevFinishedStatus, ddevFailedStatus]

/-- Witness for C3 at a concrete successful run producing one stdout
line. -/
theorem run_ddev_streaming_event_shape_witness :
    ∃ outs : List CommandOutput, ∃ term : CommandStatus,
      emittedEvents (run_ddev_command_streaming [] 0 "start" "site" "start"
          (SpawnOutcome.spawned 5 [Except.ok "a"] [] (Except.ok true))
          false).trace =
        Event.status (ddevStartedStatus "start" "site" "start"
          (generate_process_id 0).1) ::
          (outs.map Event.output ++ [Event.status term]) ∧
      term.status =
        (if spawnExitOk (SpawnOutcome.spawned 5 [Except.ok "a"] []
            (Except.ok true)) then "finished" else "error") :=
  run_ddev_streaming_event_shape [] 0 "start" "site" "start"
    (SpawnOutcome.spawned 5 [Except.ok "a"] [] (Except.ok true)) false rfl

theorem emittedOutputs_append (t1 t2 : List Action) :
    emittedOutputs (t1 ++ t2) = emittedOutputs t1 ++ emittedOutputs t2 := by
  simp [emittedOutputs]

theorem emittedStatuses_append (t1 t2 : List Action) :
    emittedStatuses (t1 ++ t2) = emittedStatuses t1 ++ emittedStatuses t2 := by
  simp [emittedStatuses]

theorem emittedOutputs_outputActions (stream : String) (lines : List String) :
    emittedOutputs (outputActions stream lines) =
      lines.map (fun l => { line := l, stream := stream }) := by
  induction lines with
  | nil => rfl
  | cons l ls ih => simp [outputActions, emittedOutputs] at ih ⊢; exact ih

theorem emittedStatuses_outputActions (stream : String)
    (lines : List String) :
    emittedStatuses (outputActions stream lines) = [] := by
  induction lines with
  | nil => rfl
  | cons l ls ih => simp [outputActions, emittedStatuses]

theorem linesMapWhileOk_stops_at_error (pre : List String)
    (rest : StreamData) :
    linesMapWhileOk (pre.map Except.ok ++ Except.error () :: rest) = pre := by
  induction pre with
  | nil => rfl
  | cons l ls ih => simp [linesMapWhileOk, ih]

theorem emittedOutputs_nil : emittedOutputs [] = [] := rfl

theorem emittedOutputs_status (s : CommandStatus) (t : List Action) :
    emittedOutputs (Action.emitStatus s :: t) = emittedOutputs t := rfl

theorem emittedOutputs_output (o : CommandOutput) (t : List Action) :
    emittedOutputs (Action.emitOutput o :: t) = o :: emittedOutputs t := rfl

theorem emittedOutputs_lockAcquire (t : List Action) :
    emittedOutputs (Action.lockAcquire :: t) = emittedOutputs t := rfl

theorem emittedOutputs_lockRelease (t : List Action) :
    emittedOutputs (Action.lockRelease :: t) = emittedOutputs t := rfl

theorem emittedOutputs_mapOp (t : List Action) :
    emittedOutputs (Action.mapOp :: t) = emittedOutputs t := rfl

theorem emittedOutputs_killChild (c : Nat) (t : List Action) :
    emittedOutputs (Action.killChild c :: t) = emittedOutputs t := rfl

theorem emittedOutputs_waitChild (c : Nat) (t : List Action) :
    emittedOutputs (Action.waitChild c :: t) = emittedOutputs t := rfl

theorem emittedOutputs_spawnStep (s : String) (t : List Action) :
    emittedOutputs (Action.spawnStep s :: t) = emittedOutputs t := rfl

theorem emittedStatuses_nil : emittedStatuses [] = [] := rfl

theorem emittedStatuses_status (s : CommandStatus) (t : List Action) :
    emittedStatuses (Action.emitStatus s :: t) =
      s :: emittedStatuses t := rfl

theorem emittedStatuses_output (o : CommandOutput) (t : List Action) :
    emittedStatuses (Action.emitOutput o :: t) = emittedStatuses t := rfl

theorem emittedStatuses_lockAcquire (t : List Action) :
    emittedStatuses (Action.lockAcquire :: t) = emittedStatuses t := rfl

theorem emittedStatuses_lockRelease (t : List Action) :
    emittedStatuses (Action.lockRelease :: t) = emittedStatuses t := rfl

theorem emittedStatuses_mapOp (t : List Action) :
    emittedStatuses (Action.mapOp :: t) = emittedStatuses t := rfl

theorem emittedStatuses_killChild (c : Nat) (t : List Action) :
    emittedStatuses (Action.killChild c :: t) = emittedStatuses t := rfl

theorem emittedStatuses_waitChild (c : Nat) (t : List Action) :
    emittedStatuses (Action.waitChild c :: t) = emittedStatuses t := rfl

theorem emittedStatuses_spawnStep (s : String) (t : List Action) :
    emittedStatuses (Action.spawnStep s :: t) = emittedStatuses t := rfl

/-- Counterexample to C6: in a run whose stdout yields the line "a", then a
per-line read error, then the line "b", the runner emits only "a" — the
erroneous line aborts that stream instead of being skipped, so "b" is never
emitted. -/
theorem streaming_line_error_aborts_stream :
    emittedOutputs (run_ddev_command_streaming [] 0 "start" "site" "start"
        (SpawnOutcome.spawned 5
          [Except.ok "a", Except.error (), Except.ok "b"] []
          (Except.ok true)) false).trace =
      [{ line := "a", stream := "stdout" }] := by
  decide

/-- C6 (amended): a per-line error is swallowed — the run still drains the
other stream and emits its "started" and terminal status events — but the
reader stops at the first erroneous line of a stream: exactly the lines
before the error are emitted for it, and nothing after. -/
theorem streaming_line_error_stops_stream (r : Registry) (counter : Nat)
    (command_name project_name argsLine : String) (c : Nat)
    (pre : List String) (rest : StreamData) (ed : StreamData)
    (wr : Except Unit Bool) :
    linesMapWhileOk (pre.map Except.ok ++ Except.error () :: rest) = pre ∧
    emittedOutputs (run_ddev_command_streaming r counter command_name
        project_name argsLine
        (SpawnOutcome.spawned c (pre.map Except.ok ++ Except.error () :: rest)
          ed wr) false).trace =
      pre.map (fun l => { line := l, stream := "stdout" }) ++
        (linesMapWhileOk ed).map (fun l => { line := l, stream := "stderr" }) ∧
    ∃ term : CommandStatus,
      emittedStatuses (run_ddev_command_streaming r counter command_name
          project_name argsLine
          (SpawnOutcome.spawned c
            (pre.map Except.ok ++ Except.error () :: rest) ed wr)
          false).trace =
        [ddevStartedStatus command_name project_name argsLine
          (generate_process_id counter).1, term] := by
  refine ⟨linesMapWhileOk_stops_at_error pre rest, ?_, ?_⟩
  · rcases wr with u | b
    · simp [run_ddev_command_streaming, rlookup_rinsert_self,
        emittedOutputs_append, emittedOutputs_outputActions,
        emittedOutputs_status, emittedOutputs_output,
        emittedOutputs_lockAcquire, emittedOutputs_lockRelease,
        emittedOutputs_mapOp, emittedOutputs_waitChild,
        emittedOutputs_spawnStep, emittedOutputs_nil,
        linesMapWhileOk_stops_at_error]
    · cases b <;>
        simp [run_ddev_command_streaming, rlookup_rinsert_self,
          emittedOutputs_append, emittedOutputs_outputActions,
          emittedOutputs_status, emittedOutputs_output,
          emittedOutputs_lockAcquire, emittedOutputs_lockRelease,
          emittedOutputs_mapOp, emittedOutputs_waitChild,
          emittedOutputs_spawnStep, emittedOutputs_nil,
          linesMapWhileOk_stops_at_error]
  · refine ⟨?_, ?_⟩
    case refine_1 =>
      exact match wr with
      | Except.ok true => ddevFinishedStatus command_name project_name
      | Except.ok false => ddevFailedStatus command_name project_name
      | Except.error _ => ddevFailedStatus command_name project_name
    case refine_2 =>
      rcases wr with u | b
      · simp [run_ddev_command_streaming, rlookup_rinsert_self,
          emittedStatuses_append, emittedStatuses_outputActions,
          emittedStatuses_status, emittedStatuses_output,
          emittedStatuses_lockAcquire, emittedStatuses_lockRelease,
          emittedStatuses_mapOp, emittedStatuses_waitChild,
          emittedStatuses_spawnStep, emittedStatuses_nil]
      · cases b <;>
          simp [run_ddev_command_streaming, rlookup_rinsert_self,
            emittedStatuses_append, emittedStatuses_outputActions,
            emittedStatuses_status, emittedStatuses_output,
            emittedStatuses_lockAcquire, emittedStatuses_lockRelease,
            emittedStatuses_mapOp, emittedStatuses_waitChild,
            emittedStatuses_spawnStep, emittedStatuses_nil]

/-- Counterexample to C7: starting from a registry holding the task entry,
a spawn failure and a spawned process that exits with a non-zero status
both make `run_streaming_command` return `Ok(false)` — the result does not
distinguish the two cases. -/
theorem spawn_failure_result_not_distinct :
    (run_streaming_command (create_task_entry [] "proc_1" "config" "site")
        "composer" (some "proc_1") "config" "site"
        (SpawnOutcome.spawnFail "No such file") false).result =
      Except.ok false ∧
    (run_streaming_command (create_task_entry [] "proc_1" "config" "site")
        "composer" (some "proc_1") "config" "site"
        (SpawnOutcome.spawned 5 [] [] (Except.ok false)) false).result =
      Except.ok false := by
  constructor <;> rfl

/-- C7 (amended): `run_streaming_command` returns `Ok(false)` both for a
spawn failure and for a process that spawned and exited unsuccessfully;
the spawn failure is distinguished only in the event stream, by a
"Failed to start" stderr output line, and is reported without any
registration ever occurring (the registry is left untouched). -/
theorem run_streaming_command_spawn_fail (r : Registry)
    (cmd pid command_name project_name e : String) (cd : Bool)
    (hpre : is_process_cancelled r pid = false) :
    (run_streaming_command r cmd (some pid) command_name project_name
        (SpawnOutcome.spawnFail e) cd).result = Except.ok false ∧
    (run_streaming_command r cmd (some pid) command_name project_name
        (SpawnOutcome.spawnFail e) cd).registry = r ∧
    emittedOutputs (run_streaming_command r cmd (some pid) command_name
        project_name (SpawnOutcome.spawnFail e) cd).trace =
      [{ line := "Failed to start " ++ cmd ++ ": " ++ e,
         stream := "stderr" }] ∧
    (∀ (c : Nat) (sd ed : StreamData),
      (run_streaming_command r cmd (some pid) command_name project_name
          (SpawnOutcome.spawned c sd ed (Except.ok false)) false).result =
        Except.ok false) := by
  refine ⟨?_, ?_, ?_, ?_⟩
  · simp [run_streaming_command, hpre]
  · simp [run_streaming_command, hpre]
  · simp [run_streaming_command, hpre, is_process_cancelled_trace,
      emittedOutputs_append, emittedOutputs_output, emittedOutputs_nil,
      emittedOutputs_lockAcquire, emittedOutputs_lockRelease,
      emittedOutputs_mapOp, emittedOutputs_spawnStep]
  · intro c sd ed
    have htake : (take_child_process
        (register_child_process r pid c command_name project_name) pid).2 =
        some c := by
      simp [take_child_process, rlookup_rinsert_self, register_child_process]
    simp [run_streaming_command, hpre, htake]

/-- Witness for C7's amended statement at a concrete registry. -/
theorem run_streaming_command_spawn_fail_witness :
    (run_streaming_command (create_task_entry [] "proc_1" "config" "site")
        "composer" (some "proc_1") "config" "site"
        (SpawnOutcome.spawnFail "No such file") false).result =
      Except.ok false ∧
    (run_streaming_command (create_task_entry [] "proc_1" "config" "site")
        "composer" (some "proc_1") "config" "site"
        (SpawnOutcome.spawnFail "No such file") false).registry =
      create_task_entry [] "proc_1" "config" "site" :=
  have h := run_streaming_command_spawn_fail
    (create_task_entry [] "proc_1" "config" "site") "composer" "proc_1"
    "config" "site" "No such file" false (by decide)
  ⟨h.1, h.2.1⟩

/-- C10: with no task identifier supplied, a successful spawn makes
`run_streaming_command` return `Ok(true)` whatever the child's exit or
wait outcome, the registry is untouched, and the spawned child is never
waited on (never reaped). -/
theorem run_streaming_command_no_id (r : Registry)
    (cmd command_name project_name : String) (c : Nat)
    (sd ed : StreamData) (wr : Except Unit Bool) (cd : Bool) :
    (run_streaming_command r cmd none command_name project_name
        (SpawnOutcome.spawned c sd ed wr) cd).result = Except.ok true ∧
    (run_streaming_command r cmd none command_name project_name
        (SpawnOutcome.spawned c sd ed wr) cd).registry = r ∧
    (run_streaming_command r cmd none command_name project_name
        (SpawnOutcome.spawned c sd ed wr) cd).trace.all
      (fun a => ! a.isWait) = true := by
  refine ⟨by simp [run_streaming_command], by simp [run_streaming_command],
    ?_⟩
  simp [run_streaming_command, outputActions, Action.isWait,
    List.all_append]

/-- Counterexample to C2: in a `create_project` run where the `ddev
config` step succeeds and the auto-start step fails, the runner emits
"started" then "finished" — no terminal "error" event at all, although a
step failed. -/
theorem auto_start_failure_emits_finished :
    (emittedStatuses (create_project [] 0 "site" "config --project-name=site"
        true
        { dirResult := Except.ok (), cmsStep := none
          configStep := StepResult.success
          startStep := StepResult.failed }).trace).map
      (fun s => s.status) = ["started", "finished"] := by
  decide

/-- C2 (amended): a failure of any step up to and including `ddev config`
removes the task entry, emits exactly one terminal "error" event whose
message identifies the failing step (directory creation, CMS install, and
configuration each have a distinct message), and runs no later step; but a
failure of the optional auto-start step after a successful configuration
is ignored — the entry is removed and a terminal "finished" event is
emitted instead of an error. -/
theorem create_project_step_failure (r : Registry) (counter : Nat)
    (name argsLine : String) (auto_start : Bool) (w : CreateWorld) :
    (∀ e, w.dirResult = Except.error e →
      emittedStatuses (create_project r counter name argsLine auto_start
          w).trace =
        [createStartedStatus name argsLine (generate_process_id counter).1,
         dirErrorStatus name e] ∧
      rlookup (create_project r counter name argsLine auto_start w).registry
        (generate_process_id counter).1 = none ∧
      ranStep (create_project r counter name argsLine auto_start w).trace
        "cms" = false ∧
      ranStep (create_project r counter name argsLine auto_start w).trace
        "config" = false ∧
      ranStep (create_project r counter name argsLine auto_start w).trace
        "start" = false) ∧
    (w.dirResult = Except.ok () → w.cmsStep = some StepResult.failed →
      emittedStatuses (create_project r counter name argsLine auto_start
          w).trace =
        [createStartedStatus name argsLine (generate_process_id counter).1,
         cmsFailedStatus name] ∧
      rlookup (create_project r counter name argsLine auto_start w).registry
        (generate_process_id counter).1 = none ∧
      ranStep (create_project r counter name argsLine auto_start w).trace
        "config" = false ∧
      ranStep (create_project r counter name argsLine auto_start w).trace
        "start" = false) ∧
    (w.dirResult = Except.ok () →
      (w.cmsStep = none ∨ w.cmsStep = some StepResult.success) →
      w.configStep = StepResult.failed →
      emittedStatuses (create_project r counter name argsLine auto_start
          w).trace =
        [createStartedStatus name argsLine (generate_process_id counter).1,
         configFailedStatus name] ∧
      rlookup (create_project r counter name argsLine auto_start w).registry
        (generate_process_id counter).1 = none ∧
      ranStep (create_project r counter name argsLine auto_start w).trace
        "start" = false) ∧
    (w.dirResult = Except.ok () →
      (w.cmsStep = none ∨ w.cmsStep = some StepResult.success) →
      w.configStep = StepResult.success → auto_start = true →
      w.startStep = StepResult.failed →
      emittedStatuses (create_project r counter name argsLine auto_start
          w).trace =
        [createStartedStatus name argsLine (generate_process_id counter).1,
         createFinishedStatus name] ∧
      rlookup (create_project r counter name argsLine auto_start w).registry
        (generate_process_id counter).1 = none) := by
  have hnc : ∀ cn pn, is_process_cancelled
      (create_task_entry r (generate_process_id counter).1 cn pn)
      (generate_process_id counter).1 = false := by
    intro cn pn
    simp [is_process_cancelled, create_task_entry, rlookup_rinsert_self]
  refine ⟨?_, ?_, ?_, ?_⟩
  · intro e hdir
    refine ⟨?_, ?_, ?_, ?_, ?_⟩ <;>
      simp [create_project, hdir, emittedStatuses_status, emittedStatuses_nil,
        remove_task_entry, rlookup_rerase_self, ranStep]
  · intro hdir hcms
    refine ⟨?_, ?_, ?_, ?_⟩ <;>
      simp [create_project, hdir, hcms, hnc, emittedStatuses_status,
        emittedStatuses_spawnStep, emittedStatuses_nil, remove_task_entry,
        rlookup_rerase_self, ranStep]
  · intro hdir hcms hcfg
    rcases hcms with hcms | hcms <;>
      refine ⟨?_, ?_, ?_⟩ <;>
        simp [create_project, create_project_config_phase, hdir, hcms, hcfg,
          hnc, emittedStatuses_status, emittedStatuses_spawnStep,
          emittedStatuses_nil, remove_task_entry, rlookup_rerase_self,
          ranStep]
  · intro hdir hcms hcfg hauto hstart
    rcases hcms with hcms | hcms <;>
      refine ⟨?_, ?_⟩ <;>
        simp [create_project, create_project_config_phase, hdir, hcms, hcfg,
          hauto, hstart, hnc, emittedStatuses_status,
          emittedStatuses_spawnStep, emittedStatuses_nil, remove_task_entry,
          rlookup_rerase_self, ranStep]

/-- Witness for C2's amended statement: a concrete run whose CMS step
fails emits started followed by the CMS error, removes the entry, and
never launches the config or start steps. -/
theorem create_project_step_failure_witness :
    emittedStatuses (create_project [] 0 "site" "config" false
        { dirResult := Except.ok (), cmsStep := some StepResult.failed
          configStep := StepResult.success
          startStep := StepResult.success }).trace =
      [createStartedStatus "site" "config" (generate_process_id 0).1,
       cmsFailedStatus "site"] ∧
    ranStep (create_project [] 0 "site" "config" false
        { dirResult := Except.ok (), cmsStep := some StepResult.failed
          configStep := StepResult.success
          startStep := StepResult.success }).trace "config" = false :=
  have h := ((create_project_step_failure [] 0 "site" "config" false
    { dirResult := Except.ok (), cmsStep := some StepResult.failed
      configStep := StepResult.success
      startStep := StepResult.success }).2.1) rfl rfl
  ⟨h.1, h.2.2.1⟩

/-- Counterexample to C4: the "cancelled" status event emitted by
`cancel_command` carries the task identifier (`process_id = Some(id)`),
contradicting the claim that only "started" events carry one. -/
theorem cancelled_event_carries_process_id :
    emittedStatuses (cancel_command witnessRegistry "proc_1").trace =
      [cancelledStatus witnessEntry "proc_1"] ∧
    (cancelledStatus witnessEntry "proc_1").status = "cancelled" ∧
    (cancelledStatus witnessEntry "proc_1").process_id = some "proc_1" := by
  decide

/-- C4 (amended): the task identifier is present on "started" status
events and on the "cancelled" event emitted by `cancel_command`, and
absent on every "finished" and "error" event; `run_streaming_command`
emits no status events at all. -/
theorem process_id_field_discipline :
    (∀ (r : Registry) (pid : String),
      (emittedStatuses (cancel_command r pid).trace).all
        (statusIdOk pid) = true) ∧
    (∀ (r : Registry) (counter : Nat) (cn pn al : String)
        (world : SpawnOutcome) (cd : Bool),
      (emittedStatuses (run_ddev_command_streaming r counter cn pn al world
          cd).trace).all (statusIdOk (generate_process_id counter).1) =
        true) ∧
    (∀ (r : Registry) (cmd : String) (pid : Option String) (cn pn : String)
        (world : SpawnOutcome) (cd : Bool),
      emittedStatuses (run_streaming_command r cmd pid cn pn world
          cd).trace = []) ∧
    (∀ (r : Registry) (counter : Nat) (name al : String) (auto : Bool)
        (w : CreateWorld),
      (emittedStatuses (create_project r counter name al auto w).trace).all
        (statusIdOk (generate_process_id counter).1) = true) := by
  refine ⟨?_, ?_, ?_, ?_⟩
  · intro r pid
    rcases hlook : rlookup r pid with _ | e
    · simp [cancel_command, hlook, emittedStatuses_lockAcquire,
        emittedStatuses_mapOp, emittedStatuses_lockRelease,
        emittedStatuses_nil]
    · cases hc : e.child <;>
        simp [cancel_command, hlook, hc, emittedStatuses_append,
          emittedStatuses_lockAcquire, emittedStatuses_mapOp,
          emittedStatuses_lockRelease, emittedStatuses_status,
          emittedStatuses_killChild, emittedStatuses_waitChild,
          emittedStatuses_nil, statusIdOk, cancelledStatus]
  · intro r counter cn pn al world cd
    cases world with
    | spawnFail e =>
        simp [run_ddev_command_streaming, emittedStatuses_status,
          emittedStatuses_spawnStep, emittedStatuses_nil, statusIdOk,
          ddevStartedStatus, ddevSpawnErrorStatus]
    | spawned c sd ed wr =>
        cases cd with
        | false =>
            rcases wr with u | b
            · simp [run_ddev_command_streaming, rlookup_rinsert_self,
                emittedStatuses_append, emittedStatuses_outputActions,
                emittedStatuses_status, emittedStatuses_spawnStep,
                emittedStatuses_lockAcquire, emittedStatuses_mapOp,
                emittedStatuses_lockRelease, emittedStatuses_waitChild,
                emittedStatuses_nil, statusIdOk, ddevStartedStatus,
                ddevFailedStatus]
            · cases b <;>
                simp [run_ddev_command_streaming, rlookup_rinsert_self,
                  emittedStatuses_append, emittedStatuses_outputActions,
                  emittedStatuses_status, emittedStatuses_spawnStep,
                  emittedStatuses_lockAcquire, emittedStatuses_mapOp,
                  emittedStatuses_lockRelease, emittedStatuses_waitChild,
                  emittedStatuses_nil, statusIdOk, ddevStartedStatus,
                  ddevFinishedStatus, ddevFailedStatus]
        | true =>
            simp [run_ddev_command_streaming, rlookup_rinsert_self,
              rlookup_rerase_self, emittedStatuses_append,
              emittedStatuses_outputActions, emittedStatuses_status,
              emittedStatuses_spawnStep, emittedStatuses_lockAcquire,
              emittedStatuses_mapOp, emittedStatuses_lockRelease,
              emittedStatuses_nil, statusIdOk, ddevStartedStatus]
  · intro r cmd pid cn pn world cd
    rcases pid with _ | p
    · cases world <;>
        simp [run_streaming_command, emittedStatuses_append,
          emittedStatuses_outputActions, emittedStatuses_spawnStep,
          emittedStatuses_output, emittedStatuses_nil]
    · by_cases hp : is_process_cancelled r p = true
      · cases world <;>
          simp [run_streaming_command, hp, is_process_cancelled_trace,
            emittedStatuses_lockAcquire, emittedStatuses_mapOp,
            emittedStatuses_lockRelease, emittedStatuses_nil]
      · cases world with
        | spawnFail e =>
            simp [run_streaming_command, hp, is_process_cancelled_trace,
              emittedStatuses_append, emittedStatuses_lockAcquire,
              emittedStatuses_mapOp, emittedStatuses_lockRelease,
              emittedStatuses_spawnStep, emittedStatuses_output,
              emittedStatuses_nil]
        | spawned c sd ed wr =>
            rcases htk : (take_child_process
                (if cd then rerase (register_child_process r p c cn pn) p
                 else register_child_process r p c cn pn) p).2 with _ | c2
            · by_cases hic : is_process_cancelled (take_child_process
                  (if cd then rerase (register_child_process r p c cn pn) p
                   else register_child_process r p c cn pn) p).1 p = true <;>
                simp [run_streaming_command, hp, htk, hic,
                  is_process_cancelled_trace, take_child_process_trace,
                  register_child_process_trace, emittedStatuses_append,
                  emittedStatuses_lockAcquire, emittedStatuses_mapOp,
                  emittedStatuses_lockRelease, emittedStatuses_spawnStep,
                  emittedStatuses_outputActions, emittedStatuses_nil]
            · simp [run_streaming_command, hp, htk,
                is_process_cancelled_trace, take_child_process_trace,
                register_child_process_trace, emittedStatuses_append,
                emittedStatuses_lockAcquire, emittedStatuses_mapOp,
                emittedStatuses_lockRelease, emittedStatuses_spawnStep,
                emittedStatuses_outputActions, emittedStatuses_waitChild,
                emittedStatuses_nil]
  · intro r counter name al auto w
    obtain ⟨dir, cms, cfg, st⟩ := w
    have hnc : is_process_cancelled
        (create_task_entry r (generate_process_id counter).1 "config" name)
        (generate_process_id counter).1 = false := by
      simp [is_process_cancelled, create_task_entry, rlookup_rinsert_self]
    rcases dir with e | u
    · simp [create_project, emittedStatuses_status, emittedStatuses_nil,
        statusIdOk, createStartedStatus, dirErrorStatus]
    · rcases cms with _ | sr
      · cases cfg <;> cases auto <;> cases st <;>
          simp [create_project, create_project_config_phase, hnc,
            emittedStatuses_append, emittedStatuses_status,
            emittedStatuses_spawnStep, emittedStatuses_nil, statusIdOk,
            createStartedStatus, createFinishedStatus, configFailedStatus]
      · cases sr <;> cases cfg <;> cases auto <;> cases st <;>
          simp [create_project, create_project_config_phase, hnc,
            emittedStatuses_append, emittedStatuses_status,
            emittedStatuses_spawnStep, emittedStatuses_nil, statusIdOk,
            createStartedStatus, createFinishedStatus, configFailedStatus,
            cmsFailedStatus]

theorem lockDisciplineAux_map_emitOutput (g : String → CommandOutput)
    (ls : List String) (t : List Action) :
    lockDisciplineAux (ls.map (fun l => Action.emitOutput (g l)) ++ t)
      false = lockDisciplineAux t false := by
  induction ls with
  | nil => rfl
  | cons l ls ih =>
      simp [lockDisciplineAux, Action.blocksOrEmits] at ih ⊢
      exact ih

theorem lockDisciplineAux_outputActions (stream : String)
    (ls : List String) (t : List Action) :
    lockDisciplineAux (outputActions stream ls ++ t) false =
      lockDisciplineAux t false :=
  lockDisciplineAux_map_emitOutput (fun l => { line := l, stream := stream })
    ls t

/-- Counterexample to C5: `cancel_command` on a registry holding a live
entry kills, waits and emits the cancelled event while still holding the
registry lock (the `MutexGuard` lives to the end of the function), so the
trace violates the claimed lock discipline. -/
theorem cancel_command_violates_lock_discipline :
    lockDiscipline (cancel_command witnessRegistry "proc_1").trace =
      false := by
  decide

/-- C5 (amended): the five registry helper operations each hold the lock
for exactly one map operation and neither block nor emit under it; but
`cancel_command`, whenever it finds the entry, kills/waits/emits while
holding the lock, and `run_ddev_command_streaming`'s completion path waits
on the child inside its critical section. -/
theorem registry_lock_discipline :
    (lockDiscipline is_process_cancelled_trace = true ∧
     singleMapAux is_process_cancelled_trace none = true) ∧
    (lockDiscipline create_task_entry_trace = true ∧
     singleMapAux create_task_entry_trace none = true) ∧
    (lockDiscipline register_child_process_trace = true ∧
     singleMapAux register_child_process_trace none = true) ∧
    (lockDiscipline take_child_process_trace = true ∧
     singleMapAux take_child_process_trace none = true) ∧
    (lockDiscipline remove_task_entry_trace = true ∧
     singleMapAux remove_task_entry_trace none = true) ∧
    (∀ (r : Registry) (pid : String) (e : ProcessEntry),
      rlookup r pid = some e →
      lockDiscipline (cancel_command r pid).trace = false) ∧
    (∀ (r : Registry) (counter : Nat) (cn pn al : String) (c : Nat)
        (sd ed : StreamData) (wr : Except Unit Bool),
      lockDiscipline (run_ddev_command_streaming r counter cn pn al
          (SpawnOutcome.spawned c sd ed wr) false).trace = false) := by
  refine ⟨⟨by decide, by decide⟩, ⟨by decide, by decide⟩,
    ⟨by decide, by decide⟩, ⟨by decide, by decide⟩,
    ⟨by decide, by decide⟩, ?_, ?_⟩
  · intro r pid e hlook
    cases hc : e.child <;>
      simp [cancel_command, hlook, hc, lockDiscipline, lockDisciplineAux,
        Action.blocksOrEmits]
  · intro r counter cn pn al c sd ed wr
    simp only [run_ddev_command_streaming, lockDiscipline]
    simp [lockDisciplineAux, Action.blocksOrEmits,
      lockDisciplineAux_map_emitOutput, lockDisciplineAux_outputActions,
      rlookup_rinsert_self]

/-- Witness for C5's amended statement: at the concrete one-entry registry
both the cancellation path and the streaming completion path violate the
lock discipline. -/
theorem registry_lock_discipline_witness :
    lockDiscipline (cancel_command witnessRegistry "proc_1").trace =
      false ∧
    lockDiscipline (run_ddev_command_streaming witnessRegistry 0 "start"
        "site" "start" (SpawnOutcome.spawned 6 [] [] (Except.ok true))
        false).trace = false :=
  ⟨registry_lock_discipline.2.2.2.2.2.1 witnessRegistry "proc_1"
     witnessEntry (by decide),
   registry_lock_discipline.2.2.2.2.2.2 witnessRegistry 0 "start" "site"
     "start" 6 [] [] (Except.ok true)⟩

end DdevManager
